import Mathlib

/-!
Verification of the hacker_agent MCP gateway (Rust) against its
natural-language specification.

The development shallowly embeds the two cores of the repository:

* the Command Compiler `NmapScanRequest::build_command`
  (src/chatbot/src/models/nmap_scan.rs), and
* the Tool/Prompt Dispatch Engine: `ToolRegistry`, `handle_request`, the
  per-line message loop of `main`, and the prompt operations
  (src/chatbot/src/main.rs, src/chatbot/src/tools/mod.rs,
  src/chatbot/src/prompts/list_scan_config_prompts.rs).

Rust `Vec<String>` becomes `List String`, `Option<T>` becomes `Option`,
`u8`/`u16` become `Nat` (the relevant operation is decimal rendering, which
never overflows), `serde_json::Value` becomes the inductive `Json` below,
and `anyhow::Result<Value>` inside async tool bodies becomes
`Except String Json` (the error is its rendered `Display` text, which is
what `format!("Tool error: {err}")` consumes).
-/

/-- JSON values, embedding `serde_json::Value`.  Numbers are modelled as
integers (no claim involves non-integral numbers); objects are association
lists (serde's map with distinct keys; `get` takes the first binding). -/
inductive Json where
  | null : Json
  | bool : Bool → Json
  | num : Int → Json
  | str : String → Json
  | arr : List Json → Json
  | obj : List (String × Json) → Json

/-- Embeds `serde_json::Value::get(key)`: field lookup on objects, `None`
on every other variant. -/
def Json.getField : Json → String → Option Json
  | Json.obj fields, k => (fields.find? (fun p => p.1 == k)).map Prod.snd
  | _, _ => none

/-- Embeds `serde_json::Value::as_str`. -/
def Json.asString : Json → Option String
  | Json.str s => some s
  | _ => none

/-- Embeds `serde_json::Value::as_bool`. -/
def Json.asBool : Json → Option Bool
  | Json.bool b => some b
  | _ => none

/-! ## The Scan Option Record (src/chatbot/src/models/nmap_scan.rs) -/

/-- Nmap timing templates `TimingTemplate` (nmap_scan.rs lines 16-24). -/
inductive TimingTemplate where
  | T0 | T1 | T2 | T3 | T4 | T5

/-- Scan techniques `ScanType` (nmap_scan.rs lines 26-39). -/
inductive ScanType where
  | PingScan | TcpScan | TcpConnectScan | UdpScan | TcpSynScan
  | TcpAckScan | TcpWindowScan | TcpMaimonScan | TcpFinScan
  | TcpNullScan | TcpXmasScan

/-- Port specifications `PortSpec` (nmap_scan.rs lines 41-48). -/
inductive PortSpec where
  | All : PortSpec
  | TopPorts : Nat → PortSpec
  | Specific : List String → PortSpec
  | Range : String → PortSpec
  | Common : PortSpec

/-- `ServiceDetection` block (nmap_scan.rs lines 50-55). -/
structure ServiceDetection where
  enabled : Bool
  intensity : Option Nat
  all_ports : Bool

/-- Script categories `ScriptCategory` (nmap_scan.rs lines 64-68). -/
inductive ScriptCategory where
  | Auth | Default | Discovery | Dos | Exploit | External | Fuzzer
  | Intrusive | Malware | Safe | Version | Vuln | Brute | Broadcast
  | Meterpreter | Sniffer
deriving DecidableEq

/-- `ScriptScan` block (nmap_scan.rs lines 57-62). -/
structure ScriptScan where
  scripts : List String
  args : Option String
  categories : List ScriptCategory

/-- Output formats `OutputFormat` (nmap_scan.rs lines 70-77). -/
inductive OutputFormat where
  | Normal | Xml | Json | Greppable | All

/-- `StealthOptions` block (nmap_scan.rs lines 79-88). -/
structure StealthOptions where
  decoys : Option (List String)
  source_port : Option Nat
  interface : Option String
  ttl : Option Nat
  randomize_hosts : Bool
  spoof_ip : Option String
  spoof_mac : Option String

/-- The Scan Option Record `NmapScanRequest` (nmap_scan.rs lines 3-14). -/
structure NmapScanRequest where
  target : String
  timing : Option TimingTemplate
  scan_type : Option ScanType
  port_specification : Option PortSpec
  service_detection : Option ServiceDetection
  os_detection : Bool
  script_scan : Option ScriptScan
  output_format : Option OutputFormat
  stealth_options : Option StealthOptions

/-! ## The Command Compiler `build_command` (nmap_scan.rs lines 91-208)

The Rust function pushes tokens onto a `Vec` block by block, in a fixed
order.  Each block below is one `if let`/`match` block of the source, and
`build_command` is their concatenation in the source's push order. -/

/-- Timing-template block (nmap_scan.rs lines 95-104): pushes
`format!("-T{}", ...)`. -/
def timingTokens : Option TimingTemplate → List String
  | none => []
  | some t =>
    ["-T" ++ (match t with
      | TimingTemplate.T0 => "0"
      | TimingTemplate.T1 => "1"
      | TimingTemplate.T2 => "2"
      | TimingTemplate.T3 => "3"
      | TimingTemplate.T4 => "4"
      | TimingTemplate.T5 => "5")]

/-- Scan-type block (nmap_scan.rs lines 107-121). -/
def scanTypeTokens : Option ScanType → List String
  | none => []
  | some st =>
    [match st with
      | ScanType.PingScan => "-sn"
      | ScanType.TcpScan => "-sS"
      | ScanType.TcpConnectScan => "-sT"
      | ScanType.UdpScan => "-sU"
      | ScanType.TcpSynScan => "-sS"
      | ScanType.TcpAckScan => "-sA"
      | ScanType.TcpWindowScan => "-sW"
      | ScanType.TcpMaimonScan => "-sM"
      | ScanType.TcpFinScan => "-sF"
      | ScanType.TcpNullScan => "-sN"
      | ScanType.TcpXmasScan => "-sX"]

/-- Port-specification block (nmap_scan.rs lines 124-132).  Note that the
source renders `format!("--top-ports {}", n)` and `format!("-p {}", ...)`:
flag and value live in one combined token. -/
def portTokens : Option PortSpec → List String
  | none => []
  | some PortSpec.All => ["-p-"]
  | some (PortSpec.TopPorts n) => ["--top-ports " ++ toString n]
  | some (PortSpec.Specific port_list) => ["-p " ++ String.intercalate "," port_list]
  | some (PortSpec.Range range) => ["-p " ++ range]
  | some PortSpec.Common => []

/-- Service-detection block (nmap_scan.rs lines 135-145): everything is
guarded by `service_detection.enabled`. -/
def serviceTokens : Option ServiceDetection → List String
  | none => []
  | some sd =>
    if sd.enabled then
      ["-sV"]
        ++ (match sd.intensity with
            | some intensity => ["--version-intensity " ++ toString intensity]
            | none => [])
        ++ (if sd.all_ports then ["--all-ports"] else [])
    else []

/-- OS-detection block (nmap_scan.rs lines 148-150). -/
def osTokens (os_detection : Bool) : List String :=
  if os_detection then ["-O"] else []

/-- Rendering of a script category: the source uses
`format!("{:?}", c).to_lowercase()`, i.e. the Debug name of the variant in
lower case. -/
def categoryName : ScriptCategory → String
  | ScriptCategory.Auth => "auth"
  | ScriptCategory.Default => "default"
  | ScriptCategory.Discovery => "discovery"
  | ScriptCategory.Dos => "dos"
  | ScriptCategory.Exploit => "exploit"
  | ScriptCategory.External => "external"
  | ScriptCategory.Fuzzer => "fuzzer"
  | ScriptCategory.Intrusive => "intrusive"
  | ScriptCategory.Malware => "malware"
  | ScriptCategory.Safe => "safe"
  | ScriptCategory.Version => "version"
  | ScriptCategory.Vuln => "vuln"
  | ScriptCategory.Brute => "brute"
  | ScriptCategory.Broadcast => "broadcast"
  | ScriptCategory.Meterpreter => "meterpreter"
  | ScriptCategory.Sniffer => "sniffer"

/-- Script-scan block (nmap_scan.rs lines 153-166): explicit scripts (if
non-empty), then categories (if non-empty), then script arguments. -/
def scriptTokens : Option ScriptScan → List String
  | none => []
  | some ss =>
    (if ss.scripts.isEmpty then []
     else ["--script " ++ String.intercalate "," ss.scripts])
      ++ (if ss.categories.isEmpty then []
          else ["--script " ++ String.intercalate "," (ss.categories.map categoryName)])
      ++ (match ss.args with
          | some args => ["--script-args " ++ args]
          | none => [])

/-- Output-format block (nmap_scan.rs lines 169-177). -/
def outputTokens : Option OutputFormat → List String
  | none => []
  | some OutputFormat.Xml => ["-oX"]
  | some OutputFormat.Json => ["-oJ"]
  | some OutputFormat.Greppable => ["-oG"]
  | some OutputFormat.All => ["-oA"]
  | some OutputFormat.Normal => []

/-- Stealth block (nmap_scan.rs lines 180-202), in source push order:
decoys, source port, interface, TTL, host randomization, spoofed IP,
spoofed MAC.  Note `if let Some(decoys)` fires for a present-but-empty
list and renders `format!("-D {}", decoys.join(","))`. -/
def stealthTokens : Option StealthOptions → List String
  | none => []
  | some stealth =>
    (match stealth.decoys with
      | some decoys => ["-D " ++ String.intercalate "," decoys]
      | none => [])
      ++ (match stealth.source_port with
          | some source_port => ["--source-port " ++ toString source_port]
          | none => [])
      ++ (match stealth.interface with
          | some i => ["-e " ++ i]
          | none => [])
      ++ (match stealth.ttl with
          | some ttl => ["--ttl " ++ toString ttl]
          | none => [])
      ++ (if stealth.randomize_hosts then ["--randomize-hosts"] else [])
      ++ (match stealth.spoof_ip with
          | some spoof_ip => ["-S " ++ spoof_ip]
          | none => [])
      ++ (match stealth.spoof_mac with
          | some spoof_mac => ["--spoof-mac " ++ spoof_mac]
          | none => [])

/-- The Command Compiler `NmapScanRequest::build_command` (nmap_scan.rs
lines 91-208): program name, then each block in source order, then the
target, always last. -/
def build_command (r : NmapScanRequest) : List String :=
  ["nmap"]
    ++ timingTokens r.timing
    ++ scanTypeTokens r.scan_type
    ++ portTokens r.port_specification
    ++ serviceTokens r.service_detection
    ++ osTokens r.os_detection
    ++ scriptTokens r.script_scan
    ++ outputTokens r.output_format
    ++ stealthTokens r.stealth_options
    ++ [r.target]

/-- C5: compiling a Scan Option Record whose timing, scan-type,
port-specification, service-detection, script-scan, output-format and
stealth sub-records are all absent and whose OS-detection flag is false
yields exactly the two-token sequence `[program, target]`. -/
theorem c5_minimal_record_two_tokens (target : String) :
    build_command
      { target := target, timing := none, scan_type := none,
        port_specification := none, service_detection := none,
        os_detection := false, script_scan := none, output_format := none,
        stealth_options := none } = ["nmap", target] := rfl

/-! ## Helper lemmas for locating block tokens inside `build_command` -/

/-- A token that one of the middle blocks emits is a token of the whole
compiled command. -/
lemma mem_build_command_of_block (r : NmapScanRequest) (x : String)
    (h : x ∈ portTokens r.port_specification ∨
         x ∈ serviceTokens r.service_detection ∨
         x ∈ scriptTokens r.script_scan ∨
         x ∈ stealthTokens r.stealth_options) :
    x ∈ build_command r := by
  unfold build_command
  simp only [List.mem_append, List.mem_cons, List.mem_singleton]
  tauto

/-- Two fixed leading elements form a sublist of any extension on the
right. -/
lemma pair_sublist {α : Type} (a b : α) (rest : List α) :
    List.Sublist [a, b] (a :: b :: rest) :=
  List.Sublist.cons₂ a (List.Sublist.cons₂ b (List.nil_sublist rest))

/-- A sublist of the script block is a sublist of the whole compiled
command (the block sits contiguously inside it). -/
lemma sublist_script_block (r : NmapScanRequest) {l : List String}
    (h : List.Sublist l (scriptTokens r.script_scan)) :
    List.Sublist l (build_command r) := by
  refine h.trans ?_
  unfold build_command
  simp only [List.append_assoc]
  refine List.Sublist.trans ?_ (List.sublist_append_right ["nmap"] _)
  refine List.Sublist.trans ?_ (List.sublist_append_right (timingTokens r.timing) _)
  refine List.Sublist.trans ?_ (List.sublist_append_right (scanTypeTokens r.scan_type) _)
  refine List.Sublist.trans ?_ (List.sublist_append_right (portTokens r.port_specification) _)
  refine List.Sublist.trans ?_ (List.sublist_append_right (serviceTokens r.service_detection) _)
  refine List.Sublist.trans ?_ (List.sublist_append_right (osTokens r.os_detection) _)
  exact List.sublist_append_left _ _

/-! ## C1: how numeric- and list-valued options are tokenised -/

/-- Concrete record for C1: only a top-N port specification is set. -/
def exC1 : NmapScanRequest :=
  { target := "scanme.nmap.org", timing := none, scan_type := none,
    port_specification := some (PortSpec.TopPorts 100),
    service_detection := none, os_detection := false, script_scan := none,
    output_format := none, stealth_options := none }

/-- C1 is false on the code: at `exC1` the compiler emits the single
combined token `"--top-ports 100"`; it never emits the two separate
consecutive tokens `"--top-ports"` and `"100"` that the claim requires. -/
theorem c1_counterexample :
    build_command exC1 = ["nmap", "--top-ports 100", "scanme.nmap.org"] ∧
    ¬ ("--top-ports" ∈ build_command exC1 ∧ "100" ∈ build_command exC1) :=
  ⟨rfl, by decide⟩

/-- C1 amended: whenever the compiler emits a numeric- or list-valued
option, it emits ONE token combining the flag and the (comma-joined or
literal) value, separated by a single space — not a flag token followed by
a separate value token. -/
theorem c1_amended (r : NmapScanRequest) :
    (∀ n, r.port_specification = some (PortSpec.TopPorts n) →
      ("--top-ports " ++ toString n) ∈ build_command r) ∧
    (∀ port_list, r.port_specification = some (PortSpec.Specific port_list) →
      ("-p " ++ String.intercalate "," port_list) ∈ build_command r) ∧
    (∀ range, r.port_specification = some (PortSpec.Range range) →
      ("-p " ++ range) ∈ build_command r) ∧
    (∀ sd i, r.service_detection = some sd → sd.enabled = true →
      sd.intensity = some i →
      ("--version-intensity " ++ toString i) ∈ build_command r) ∧
    (∀ ss, r.script_scan = some ss → ss.scripts ≠ [] →
      ("--script " ++ String.intercalate "," ss.scripts) ∈ build_command r) ∧
    (∀ ss, r.script_scan = some ss → ss.categories ≠ [] →
      ("--script " ++ String.intercalate "," (ss.categories.map categoryName))
        ∈ build_command r) ∧
    (∀ ss a, r.script_scan = some ss → ss.args = some a →
      ("--script-args " ++ a) ∈ build_command r) ∧
    (∀ st ds, r.stealth_options = some st → st.decoys = some ds →
      ("-D " ++ String.intercalate "," ds) ∈ build_command r) ∧
    (∀ st p, r.stealth_options = some st → st.source_port = some p →
      ("--source-port " ++ toString p) ∈ build_command r) ∧
    (∀ st i, r.stealth_options = some st → st.interface = some i →
      ("-e " ++ i) ∈ build_command r) ∧
    (∀ st t, r.stealth_options = some st → st.ttl = some t →
      ("--ttl " ++ toString t) ∈ build_command r) ∧
    (∀ st s, r.stealth_options = some st → st.spoof_ip = some s →
      ("-S " ++ s) ∈ build_command r) ∧
    (∀ st m, r.stealth_options = some st → st.spoof_mac = some m →
      ("--spoof-mac " ++ m) ∈ build_command r) := by
  refine ⟨?_, ?_, ?_, ?_, ?_, ?_, ?_, ?_, ?_, ?_, ?_, ?_, ?_⟩
  · intro n h
    exact mem_build_command_of_block r _ (Or.inl (by simp [portTokens, h]))
  · intro port_list h
    exact mem_build_command_of_block r _ (Or.inl (by simp [portTokens, h]))
  · intro range h
    exact mem_build_command_of_block r _ (Or.inl (by simp [portTokens, h]))
  · intro sd i h hen hint
    exact mem_build_command_of_block r _
      (Or.inr (Or.inl (by simp [serviceTokens, h, hen, hint])))
  · intro ss h h1
    exact mem_build_command_of_block r _
      (Or.inr (Or.inr (Or.inl (by simp [scriptTokens, h, List.isEmpty_iff, h1]))))
  · intro ss h h2
    exact mem_build_command_of_block r _
      (Or.inr (Or.inr (Or.inl (by simp [scriptTokens, h, List.isEmpty_iff, h2]))))
  · intro ss a h ha
    exact mem_build_command_of_block r _
      (Or.inr (Or.inr (Or.inl (by simp [scriptTokens, h, ha]))))
  · intro st ds h hd
    exact mem_build_command_of_block r _
      (Or.inr (Or.inr (Or.inr (by simp [stealthTokens, h, hd]))))
  · intro st p h hp
    exact mem_build_command_of_block r _
      (Or.inr (Or.inr (Or.inr (by simp [stealthTokens, h, hp]))))
  · intro st i h hi
    exact mem_build_command_of_block r _
      (Or.inr (Or.inr (Or.inr (by simp [stealthTokens, h, hi]))))
  · intro st t h ht
    exact mem_build_command_of_block r _
      (Or.inr (Or.inr (Or.inr (by simp [stealthTokens, h, ht]))))
  · intro st s h hs
    exact mem_build_command_of_block r _
      (Or.inr (Or.inr (Or.inr (by simp [stealthTokens, h, hs]))))
  · intro st m h hm
    exact mem_build_command_of_block r _
      (Or.inr (Or.inr (Or.inr (by simp [stealthTokens, h, hm]))))

/-- Concrete record with every option family populated, for the C1
witness. -/
def exC1full : NmapScanRequest :=
  { target := "198.51.100.7", timing := some TimingTemplate.T4,
    scan_type := some ScanType.TcpSynScan,
    port_specification := some (PortSpec.TopPorts 100),
    service_detection := some { enabled := true, intensity := some 7, all_ports := false },
    os_detection := true,
    script_scan := some
      { scripts := ["http-title", "ssl-cert"], args := some "useragent=test",
        categories := [ScriptCategory.Vuln, ScriptCategory.Safe] },
    output_format := some OutputFormat.Xml,
    stealth_options := some
      { decoys := some ["1.2.3.4", "5.6.7.8"], source_port := some 53,
        interface := some "eth0", ttl := some 64, randomize_hosts := true,
        spoof_ip := some "10.9.8.7", spoof_mac := some "00:11:22:33:44:55" } }

/-- Concrete record with an explicit port list, for the C1 witness. -/
def exC1spec : NmapScanRequest :=
  { exC1 with port_specification := some (PortSpec.Specific ["80", "443"]) }

/-- Concrete record with a port range, for the C1 witness. -/
def exC1range : NmapScanRequest :=
  { exC1 with port_specification := some (PortSpec.Range "1-1000") }

/-- Witness for the amended C1 at concrete records: every combined
flag-value token shows up in the compiled command. -/
theorem c1_amended_witness :
    "--top-ports 100" ∈ build_command exC1full ∧
    "-p 80,443" ∈ build_command exC1spec ∧
    "-p 1-1000" ∈ build_command exC1range ∧
    "--version-intensity 7" ∈ build_command exC1full ∧
    "--script http-title,ssl-cert" ∈ build_command exC1full ∧
    "--script vuln,safe" ∈ build_command exC1full ∧
    "--script-args useragent=test" ∈ build_command exC1full ∧
    "-D 1.2.3.4,5.6.7.8" ∈ build_command exC1full ∧
    "--source-port 53" ∈ build_command exC1full ∧
    "-e eth0" ∈ build_command exC1full ∧
    "--ttl 64" ∈ build_command exC1full ∧
    "-S 10.9.8.7" ∈ build_command exC1full ∧
    "--spoof-mac 00:11:22:33:44:55" ∈ build_command exC1full :=
  ⟨(c1_amended exC1full).1 100 rfl,
   (c1_amended exC1spec).2.1 ["80", "443"] rfl,
   (c1_amended exC1range).2.2.1 "1-1000" rfl,
   (c1_amended exC1full).2.2.2.1 _ 7 rfl rfl rfl,
   (c1_amended exC1full).2.2.2.2.1 _ rfl (by decide),
   (c1_amended exC1full).2.2.2.2.2.1 _ rfl (by decide),
   (c1_amended exC1full).2.2.2.2.2.2.1 _ "useragent=test" rfl rfl,
   (c1_amended exC1full).2.2.2.2.2.2.2.1 _ ["1.2.3.4", "5.6.7.8"] rfl rfl,
   (c1_amended exC1full).2.2.2.2.2.2.2.2.1 _ 53 rfl rfl,
   (c1_amended exC1full).2.2.2.2.2.2.2.2.2.1 _ "eth0" rfl rfl,
   (c1_amended exC1full).2.2.2.2.2.2.2.2.2.2.1 _ 64 rfl rfl,
   (c1_amended exC1full).2.2.2.2.2.2.2.2.2.2.2.1 _ "10.9.8.7" rfl rfl,
   (c1_amended exC1full).2.2.2.2.2.2.2.2.2.2.2.2 _ "00:11:22:33:44:55" rfl rfl⟩

/-! ## C3: empty decoy list and empty script lists -/

/-- Concrete record for C3: a stealth block whose decoy list is present
but empty, and a script block whose script and category lists are both
empty. -/
def exC3 : NmapScanRequest :=
  { target := "10.0.0.5", timing := none, scan_type := none,
    port_specification := none, service_detection := none,
    os_detection := false,
    script_scan := some { scripts := [], args := none, categories := [] },
    output_format := none,
    stealth_options := some
      { decoys := some [], source_port := none, interface := none,
        ttl := none, randomize_hosts := false, spoof_ip := none,
        spoof_mac := none } }

/-- C3 is false on the code: at `exC3` (empty decoy list, empty script
and category lists) the compiler does emit a `-D` token — the single
token `"-D "`, i.e. the flag paired with an empty value. -/
theorem c3_counterexample :
    build_command exC3 = ["nmap", "-D ", "10.0.0.5"] ∧
    "-D " ∈ build_command exC3 :=
  ⟨rfl, by decide⟩

/-- C3 amended: an empty explicit-scripts list together with an empty
category list suppresses every `--script` token (only a `--script-args`
token can remain, when arguments are present), but a present-yet-empty
decoy list does NOT suppress `-D`: the compiler emits the token `"-D "`
(the flag with an empty value).  Only an absent decoy field emits no `-D`
token. -/
theorem c3_amended (r : NmapScanRequest) :
    (∀ ss, r.script_scan = some ss → ss.scripts = [] → ss.categories = [] →
      scriptTokens r.script_scan =
        (match ss.args with
         | some args => ["--script-args " ++ args]
         | none => [])) ∧
    (∀ st, r.stealth_options = some st → st.decoys = some [] →
      "-D " ∈ build_command r) := by
  constructor
  · intro ss h h1 h2
    cases harg : ss.args <;> simp [scriptTokens, h, h1, h2, harg]
  · intro st h hd
    have hmem : ("-D " ++ String.intercalate "," ([] : List String))
        ∈ build_command r :=
      mem_build_command_of_block r _
        (Or.inr (Or.inr (Or.inr (by simp [stealthTokens, h, hd]))))
    exact hmem

/-- Witness for the amended C3 at the concrete record `exC3`. -/
theorem c3_amended_witness :
    scriptTokens exC3.script_scan = [] ∧ "-D " ∈ build_command exC3 :=
  ⟨(c3_amended exC3).1 _ rfl rfl rfl, (c3_amended exC3).2 _ rfl rfl⟩

/-! ## C6: explicit script list and category list together -/

/-- C6: when both the explicit script list and the category list are
non-empty, the compiled command contains both script flags as two
separate tokens, with the explicit-scripts token strictly before the
category token. -/
theorem c6_explicit_scripts_before_categories (r : NmapScanRequest)
    (ss : ScriptScan) (h : r.script_scan = some ss)
    (h1 : ss.scripts ≠ []) (h2 : ss.categories ≠ []) :
    List.Sublist
      ["--script " ++ String.intercalate "," ss.scripts,
       "--script " ++ String.intercalate "," (ss.categories.map categoryName)]
      (build_command r) := by
  apply sublist_script_block
  rw [h]
  have e1 : ss.scripts.isEmpty = false := by simp [List.isEmpty_iff, h1]
  have e2 : ss.categories.isEmpty = false := by simp [List.isEmpty_iff, h2]
  cases harg : ss.args <;> simp [scriptTokens, e1, e2, harg]

/-- Concrete record for the C6 witness: the spec's own example, explicit
script list `["http-title"]` and category list `[Vuln]`. -/
def exC6 : NmapScanRequest :=
  { target := "192.0.2.1", timing := none, scan_type := none,
    port_specification := none, service_detection := none,
    os_detection := false,
    script_scan := some
      { scripts := ["http-title"], args := none,
        categories := [ScriptCategory.Vuln] },
    output_format := none, stealth_options := none }

/-- Witness for C6 at the concrete record `exC6`. -/
theorem c6_witness :
    List.Sublist ["--script http-title", "--script vuln"]
      (build_command exC6) :=
  c6_explicit_scripts_before_categories exC6 _ rfl (by decide) (by decide)

/-! ## C9: disabled service-detection block -/

/-- C9: a present service-detection block with `enabled = false`
contributes no token at all — the compiled command is identical to the
one for the record with the block absent, even when an intensity value is
set or the all-ports flag is true. -/
theorem c9_service_detection_disabled (r : NmapScanRequest)
    (sd : ServiceDetection) (h : r.service_detection = some sd)
    (hen : sd.enabled = false) :
    serviceTokens r.service_detection = [] ∧
    build_command r = build_command { r with service_detection := none } := by
  have hs : serviceTokens r.service_detection = [] := by
    simp [serviceTokens, h, hen]
  refine ⟨hs, ?_⟩
  simp [build_command, h, serviceTokens, hen]

/-- Concrete record for the C9 witness: service detection disabled but
with an intensity value set and the all-ports flag true. -/
def exC9 : NmapScanRequest :=
  { target := "203.0.113.9", timing := none, scan_type := none,
    port_specification := none,
    service_detection := some
      { enabled := false, intensity := some 9, all_ports := true },
    os_detection := false, script_scan := none, output_format := none,
    stealth_options := none }

/-- Witness for C9 at the concrete record `exC9`. -/
theorem c9_witness :
    serviceTokens exC9.service_detection = [] ∧
    build_command exC9 = build_command { exC9 with service_detection := none } :=
  c9_service_detection_disabled exC9 _ rfl rfl

/-! ## The Protocol Engine (src/chatbot/src/main.rs)

Messages, responses, the capability registry, and the per-request
dispatcher `handle_request`.  Async execution and `anyhow::Result` are
embedded as `Except String Json`; the error component is the error's
rendered text, which is exactly what `format!("Tool error: {err}")` and
`format!("Prompt not found: {err}")` interpolate. -/

/-- Embeds `RpcRequest` (main.rs lines 16-23): an already-parsed incoming
message.  `id` is `Option<Value>` with serde default `None` — a message
without a correlation token parses to `id = none`. -/
structure RpcRequest where
  id : Option Json
  method : String
  params : Json

/-- Embeds `RpcError` (main.rs lines 37-41). -/
structure RpcError where
  code : Int
  message : String

/-- Embeds `RpcResponse` (main.rs lines 26-34): `jsonrpc` is always the
static string "2.0"; exactly one of `result`/`error` is set by the two
constructors `ok` and `err_resp` below. -/
structure RpcResponse where
  jsonrpc : String
  id : Json
  result : Option Json
  error : Option RpcError

/-- Embeds the success constructor `ok` (main.rs lines 235-242). -/
def ok (id : Json) (result : Json) : RpcResponse :=
  { jsonrpc := "2.0", id := id, result := some result, error := none }

/-- Embeds the failure constructor `err_resp` (main.rs lines 244-251). -/
def err_resp (id : Json) (code : Int) (message : String) : RpcResponse :=
  { jsonrpc := "2.0", id := id, result := none,
    error := some { code := code, message := message } }

/-- A Capability Descriptor: embeds the `Tool` trait (main.rs lines
44-59).  `execute` is the tool's async body as a function from the input
payload to a result or a rendered error. -/
structure Tool where
  name : String
  description : String
  inputSchema : Json
  execute : Json → Except String Json

/-- The Registry: embeds `ToolRegistry` (main.rs lines 61-98), a
`HashMap<String, Arc<dyn Tool>>`.  The hash map is modelled as an
association list with distinct keys; the map's unspecified iteration
order is fixed here to insertion order (every claim proved about it is
order-insensitive: name-set equality, duplicate freedom, lookup). -/
structure ToolRegistry where
  tools : List (String × Tool)

/-- Embeds `ToolRegistry::new` (main.rs lines 67-71). -/
def ToolRegistry.new : ToolRegistry := { tools := [] }

/-- Embeds `ToolRegistry::register` (main.rs lines 73-76):
`HashMap::insert` keyed on `tool.name()`, last write wins. -/
def ToolRegistry.register (reg : ToolRegistry) (t : Tool) : ToolRegistry :=
  { tools := reg.tools.filter (fun p => p.1 != t.name) ++ [(t.name, t)] }

/-- Embeds `ToolRegistry::list` (main.rs lines 78-89): one JSON object
per registered tool with its name, description and input schema. -/
def ToolRegistry.list (reg : ToolRegistry) : List Json :=
  reg.tools.map (fun p =>
    Json.obj [("name", Json.str p.2.name),
              ("description", Json.str p.2.description),
              ("inputSchema", p.2.inputSchema)])

/-- Name-based lookup inside `ToolRegistry::call` (main.rs lines 92-95):
`self.tools.get(name)`. -/
def ToolRegistry.lookup (reg : ToolRegistry) (name : String) : Option Tool :=
  (reg.tools.find? (fun p => p.1 == name)).map Prod.snd

/-- Embeds `ToolRegistry::call` (main.rs lines 91-97): an absent name
becomes the error `"Unknown tool: {name}"`, otherwise the tool executes. -/
def ToolRegistry.call (reg : ToolRegistry) (name : String) (input : Json) :
    Except String Json :=
  match reg.lookup name with
  | none => Except.error ("Unknown tool: " ++ name)
  | some t => t.execute input

/-- Embeds `ToolCallParams` (main.rs lines 101-106): `name` is required,
`input` carries `#[serde(default)]` and so defaults to JSON null. -/
structure ToolCallParams where
  name : String
  input : Json

/-- Deserialisation of `ToolCallParams` from the request's `params`
value (`serde_json::from_value` in main.rs line 196): requires an object
with a string `name` field; a missing `input` field defaults to
`Json.null`.  The error text stands in for serde's rendered message —
only the fact of failure (mapped to code -32602) is load-bearing. -/
def parseToolCallParams (params : Json) : Except String ToolCallParams :=
  match params with
  | Json.obj _ =>
    (match Json.getField params "name" with
     | some (Json.str s) =>
       Except.ok { name := s, input := (Json.getField params "input").getD Json.null }
     | some _ => Except.error "invalid type for field `name`"
     | none => Except.error "missing field `name`")
  | _ => Except.error "invalid type: expected an object"

/-! ## Prompts (src/chatbot/src/prompts/list_scan_config_prompts.rs) -/

/-- Embeds `PromptArgument` (list_scan_config_prompts.rs lines 6-13). -/
structure PromptArgument where
  name : String
  description : String
  required : Bool
  schema : Json

/-- Embeds `PromptDef` (list_scan_config_prompts.rs lines 16-21). -/
structure PromptDef where
  name : String
  description : String
  arguments : List PromptArgument

/-- Embeds `PromptGetParams` (list_scan_config_prompts.rs lines 24-29):
`name` required, `arguments` defaults to JSON null. -/
structure PromptGetParams where
  name : String
  arguments : Json

/-- Deserialisation of `PromptGetParams` from the request's `params`
value (main.rs line 214), mirroring `parseToolCallParams`. -/
def parsePromptGetParams (params : Json) : Except String PromptGetParams :=
  match params with
  | Json.obj _ =>
    (match Json.getField params "name" with
     | some (Json.str s) =>
       Except.ok { name := s, arguments := (Json.getField params "arguments").getD Json.null }
     | some _ => Except.error "invalid type for field `name`"
     | none => Except.error "missing field `name`")
  | _ => Except.error "invalid type: expected an object"

/-- Embeds `list_prompts` (list_scan_config_prompts.rs lines 32-57). -/
def list_prompts : List PromptDef :=
  [{ name := "explain_openvas_scan_configs",
     description := "Explain OpenVAS scan configurations returned by openvas_list_scan_configs in a structured, human-readable way.",
     arguments :=
       [{ name := "configs_json",
          description := "The JSON object returned by the openvas_list_scan_configs tool (its `output` field).",
          required := true,
          schema := Json.obj [("type", Json.str "object")] },
        { name := "user_goal",
          description := "Optional short description of what the user wants (e.g. \x27quick production check\x27).",
          required := false,
          schema := Json.obj [("type", Json.str "string")] }] }]

/-- Serde serialisation of a `PromptArgument` (derive Serialize, field
`schema` renamed to "schema" — same name). -/
def promptArgumentToJson (a : PromptArgument) : Json :=
  Json.obj [("name", Json.str a.name), ("description", Json.str a.description),
            ("required", Json.bool a.required), ("schema", a.schema)]

/-- Serde serialisation of a `PromptDef` (derive Serialize). -/
def promptDefToJson (d : PromptDef) : Json :=
  Json.obj [("name", Json.str d.name), ("description", Json.str d.description),
            ("arguments", Json.arr (d.arguments.map promptArgumentToJson))]

/-- The fixed prompt message text (list_scan_config_prompts.rs lines
75-93).  Rust string-continuation escapes (backslash-newline) swallow the
newline and the following leading whitespace, so the text is the
concatenation of the continued lines. -/
def promptText : String :=
  "You are helping a user understand OpenVAS / Greenbone scan configurations.\n\nYou are given the JSON result from the MCP tool `openvas_list_scan_configs` in the argument `configs_json`.\n\n1. Treat `configs_json.configs` as the single source of truth. Do NOT invent configs that are not present.\n2. Present the result in this exact Markdown structure:\n\n### Available OpenVAS scan configurations\n\nFor each config in `configs_json.configs` in order:\n\n1. <name> (`<id>`)\n- **Summary**: Short plain-English explanation based on the `comment` field.\n- **Typical use cases**: 2–3 bullet points describing when to use this profile.\n- **Scan depth & performance**: One sentence on how deep/fast it is relative to others.\n- **Risk to targets**: One sentence indicating if it is low-risk or may be disruptive.\n\n3. After listing all configs, add a section:\n\n### Recommendations\n\n- **Quick, safe production check**: Recommend 1–2 configs by name and ID and explain why.\n- **Deep assessment of a critical system**: Recommend 1–2 configs by name and ID and explain why.\n- **First discovery on a new network**: Recommend 1–2 configs by name and ID and explain why.\n\nIf `user_goal` is provided, prioritize recommendations that match that goal and mention it explicitly.\nUse clear language, no XML, and do not show raw JSON."

/-- The MCP prompt message array built by `get_prompt`
(list_scan_config_prompts.rs lines 68-97). -/
def promptMessages : Json :=
  Json.arr
    [Json.obj
      [("role", Json.str "user"),
       ("content", Json.arr
         [Json.obj [("type", Json.str "text"), ("text", Json.str promptText)]])]]

/-- Embeds `get_prompt` (list_scan_config_prompts.rs lines 60-105):
find the prompt by name in `list_prompts`, unknown names become the
error `"Unknown prompt: {name}"`; the `arguments` parameter is unused by
the source. -/
def get_prompt (name : String) (_arguments : Json) : Except String Json :=
  match list_prompts.find? (fun p => p.name == name) with
  | none => Except.error ("Unknown prompt: " ++ name)
  | some d =>
    Except.ok
      (Json.obj [("name", Json.str d.name),
                 ("description", Json.str d.description),
                 ("arguments", Json.arr (d.arguments.map promptArgumentToJson)),
                 ("messages", promptMessages)])

/-- Embeds `handle_request` (main.rs lines 156-233): the fixed method
table and its error-code mapping. -/
def handle_request (registry : ToolRegistry) (id : Json) (req : RpcRequest) :
    RpcResponse :=
  match req.method with
  | "initialize" =>
    let protocolVersion :=
      match (Json.getField req.params "protocolVersion").bind Json.asString with
      | some s => s
      | none => "2024-11-05"
    ok id
      (Json.obj
        [("protocolVersion", Json.str protocolVersion),
         ("capabilities", Json.obj
           [("tools", Json.obj [("listChanged", Json.bool true)]),
            ("prompts", Json.obj [("listChanged", Json.bool true)])]),
         ("serverInfo", Json.obj
           [("name", Json.str "hacker_agent"), ("version", Json.str "0.1.0")])])
  | "tools/list" => ok id (Json.obj [("tools", Json.arr registry.list)])
  | "tools/call" =>
    (match parseToolCallParams req.params with
     | Except.error e => err_resp id (-32602) ("Invalid params: " ++ e)
     | Except.ok params =>
       match registry.call params.name params.input with
       | Except.ok v => ok id (Json.obj [("output", v)])
       | Except.error e => err_resp id (-32000) ("Tool error: " ++ e))
  | "prompts/list" =>
    ok id (Json.obj [("prompts", Json.arr (list_prompts.map promptDefToJson))])
  | "prompts/get" =>
    (match parsePromptGetParams req.params with
     | Except.error e => err_resp id (-32602) ("Invalid params: " ++ e)
     | Except.ok params =>
       match get_prompt params.name params.arguments with
       | Except.ok prompt => ok id (Json.obj [("prompt", prompt)])
       | Except.error e => err_resp id (-32601) ("Prompt not found: " ++ e))
  | m => err_resp id (-32601) ("Method not found: " ++ m)

/-- Embeds the body of the read loop in `main` (main.rs lines 138-150)
for one successfully parsed message: a message without a correlation
token is a notification and produces no response; a message with a token
produces exactly one response, which the loop serialises as one output
line. -/
def processParsedMessage (registry : ToolRegistry) (req : RpcRequest) :
    List RpcResponse :=
  match req.id with
  | none => []
  | some id => [handle_request registry id req]

/-! ## Concrete capabilities (src/chatbot/src/tools/*)

Each registered tool is a thin wrapper: it validates/extracts fields from
the JSON input and delegates to an async service function in
src/chatbot/src/services/* that performs an HTTP call against the Go
backend.  Those service calls are pure I/O (the Backend Client Boundary,
out of the specified core per spec section 1); they are embedded as the
opaque function fields of `Backend` below, so every theorem about the
engine holds for every possible backend behaviour. -/

/-- Outcomes of the backend service calls used by the registered tools
(src/chatbot/src/services/*), abstracted as functions from the
already-extracted arguments to the call's result.  The nullary calls are
plain outcome values. -/
structure Backend where
  nmap_normal_scan : String → Option String → Except String Json
  advanced_nmap_scan : String → Option String → Option String → Option String →
    Bool → Bool → Option String → Option String → Bool → Bool → Bool → Bool →
    Bool → Bool → Bool → Option Json → Except String Json
  quick_scan : String → String → String → Except String Json
  stealth_scan : String → String → String → Bool → Bool → Except String Json
  openvas_get_version : Except String Json
  openvas_list_configs : Except String Json
  openvas_create_target : String → String → Option String → Except String Json
  openvas_create_task : String → String → String → Except String Json
  openvas_start_task : String → Except String Json
  openvas_task_status : String → Except String Json
  openvas_get_report : String → Except String Json

/-- Shorthand for `input.get(k).and_then(|v| v.as_str())`. -/
def getStrField (input : Json) (k : String) : Option String :=
  (Json.getField input k).bind Json.asString

/-- Shorthand for `input.get(k).and_then(|v| v.as_bool())`. -/
def getBoolField (input : Json) (k : String) : Option Bool :=
  (Json.getField input k).bind Json.asBool

/-- `EchoTool` (tools/simple_echo_tool.rs): the only fully pure tool. -/
def echoTool : Tool :=
  { name := "echo",
    description := "Echoes back the given JSON input.",
    inputSchema := Json.obj
      [("type", Json.str "object"),
       ("description", Json.str "Any JSON object to echo back.")],
    execute := fun input => Except.ok (Json.obj [("echo", input)]) }

/-- `NmapOpenPortsTool` (tools/nmap_normal_scan_tool.rs). -/
def nmapOpenPortsTool (b : Backend) : Tool :=
  { name := "nmap_open_ports",
    description := "Scans open TCP ports on a given target with optional timing template (T0-T5).",
    inputSchema := Json.obj
      [("type", Json.str "object"),
       ("properties", Json.obj
         [("target", Json.obj
            [("type", Json.str "string"),
             ("description", Json.str "Target hostname or IP address to scan.")]),
          ("timing", Json.obj
            [("type", Json.str "string"),
             ("description", Json.str "Nmap timing template: T0 (Paranoid), T1 (Sneaky), T2 (Polite), T3 (Normal), T4 (Aggressive), T5 (Insane). Default: T2"),
             ("enum", Json.arr [Json.str "T0", Json.str "T1", Json.str "T2",
                Json.str "T3", Json.str "T4", Json.str "T5"])])]),
       ("required", Json.arr [Json.str "target"]),
       ("additionalProperties", Json.bool false)],
    execute := fun input =>
      match getStrField input "target" with
      | none => Except.error "missing required field `target`"
      | some target => b.nmap_normal_scan target (getStrField input "timing") }

/-- `AdvancedNmapTool` (tools/advanced_nmap_tool.rs lines 8-169). -/
def advancedNmapTool (b : Backend) : Tool :=
  { name := "advanced_nmap_scan",
    description := "Comprehensive Nmap scan with multiple options: timing, scan types, service detection, OS detection, scripts, and output formats.",
    inputSchema := Json.obj
      [("type", Json.str "object"),
       ("properties", Json.obj
         [("target", Json.obj
            [("type", Json.str "string"),
             ("description", Json.str "Target hostname or IP address to scan.")]),
          ("timing", Json.obj
            [("type", Json.str "string"),
             ("description", Json.str "Nmap timing template: T0 (Paranoid), T1 (Sneaky), T2 (Polite), T3 (Normal), T4 (Aggressive), T5 (Insane). Default: T2"),
             ("enum", Json.arr [Json.str "T0", Json.str "T1", Json.str "T2",
                Json.str "T3", Json.str "T4", Json.str "T5"])]),
          ("scan_type", Json.obj
            [("type", Json.str "string"),
             ("description", Json.str "Type of scan to perform"),
             ("enum", Json.arr [Json.str "ping", Json.str "tcp_syn",
                Json.str "tcp_connect", Json.str "udp", Json.str "tcp_ack",
                Json.str "tcp_fin", Json.str "tcp_null", Json.str "tcp_xmas"])]),
          ("ports", Json.obj
            [("type", Json.str "string"),
             ("description", Json.str "Port specification: \x2780,443\x27, \x271-1000\x27, \x27U:53,T:80-443\x27, or \x27all\x27 for all ports")]),
          ("service_detection", Json.obj
            [("type", Json.str "boolean"),
             ("description", Json.str "Enable service/version detection (-sV)")]),
          ("os_detection", Json.obj
            [("type", Json.str "boolean"),
             ("description", Json.str "Enable OS detection (-O)")]),
          ("scripts", Json.obj
            [("type", Json.str "string"),
             ("description", Json.str "Script names or categories: \x27vuln\x27, \x27default\x27, \x27auth,discovery\x27, or specific script names")]),
          ("output_format", Json.obj
            [("type", Json.str "string"),
             ("description", Json.str "Output format for results"),
             ("enum", Json.arr [Json.str "normal", Json.str "xml",
                Json.str "json", Json.str "greppable", Json.str "all"])]),
          ("aggressive", Json.obj
            [("type", Json.str "boolean"),
             ("description", Json.str "Enable aggressive scan options (-A): service detection, OS detection, scripts, and traceroute")]),
          ("traceroute", Json.obj
            [("type", Json.str "boolean"),
             ("description", Json.str "Enable traceroute (--traceroute)")]),
          ("flag_o", Json.obj
            [("type", Json.str "boolean"),
             ("description", Json.str "Enable OS detection (-O)")]),
          ("flag_sc", Json.obj
            [("type", Json.str "boolean"),
             ("description", Json.str "Enable default scripts (-sC)")]),
          ("flag_sv", Json.obj
            [("type", Json.str "boolean"),
             ("description", Json.str "Enable service detection (-sV)")]),
          ("flag_traceroute", Json.obj
            [("type", Json.str "boolean"),
             ("description", Json.str "Enable traceroute (--traceroute)")]),
          ("flag_a", Json.obj
            [("type", Json.str "boolean"),
             ("description", Json.str "Enable aggressive scan (-A)")]),
          ("stealth_options", Json.obj
            [("type", Json.str "object"),
             ("description", Json.str "Stealth and evasion options"),
             ("properties", Json.obj
               [("decoys", Json.obj
                  [("type", Json.str "array"),
                   ("items", Json.obj [("type", Json.str "string")]),
                   ("description", Json.str "Decoy IPs (-D RND:10,ME,8.8.8.8)")]),
                ("source_port", Json.obj
                  [("type", Json.str "integer"),
                   ("description", Json.str "Source port for packets (--source-port 53)")]),
                ("interface", Json.obj
                  [("type", Json.str "string"),
                   ("description", Json.str "Network interface to use (-e eth0)")]),
                ("ttl", Json.obj
                  [("type", Json.str "integer"),
                   ("description", Json.str "Time to live for packets (--ttl 64)")]),
                ("randomize_hosts", Json.obj
                  [("type", Json.str "boolean"),
                   ("description", Json.str "Randomize target host order (--randomize-hosts)")]),
                ("spoof_ip", Json.obj
                  [("type", Json.str "string"),
                   ("description", Json.str "Spoof source IP address (-S 192.168.1.1)")]),
                ("spoof_mac", Json.obj
                  [("type", Json.str "string"),
                   ("description", Json.str "Spoof MAC address (--spoof-mac 0)")])])])]),
       ("required", Json.arr [Json.str "target"]),
       ("additionalProperties", Json.bool false)],
    execute := fun input =>
      match getStrField input "target" with
      | none => Except.error "missing required field `target`"
      | some target =>
        b.advanced_nmap_scan target
          (getStrField input "timing")
          (getStrField input "scan_type")
          (getStrField input "ports")
          ((getBoolField input "service_detection").getD false)
          ((getBoolField input "os_detection").getD false)
          (getStrField input "scripts")
          (getStrField input "output_format")
          ((getBoolField input "aggressive").getD false)
          ((getBoolField input "traceroute").getD false)
          ((getBoolField input "flag_o").getD false)
          ((getBoolField input "flag_sc").getD false)
          ((getBoolField input "flag_sv").getD false)
          ((getBoolField input "flag_traceroute").getD false)
          ((getBoolField input "flag_a").getD false)
          (Json.getField input "stealth_options") }

/-- `QuickScanTool` (tools/advanced_nmap_tool.rs lines 172-221). -/
def quickScanTool (b : Backend) : Tool :=
  { name := "quick_scan",
    description := "Fast network reconnaissance with common scan patterns (ping sweep, port scan, service detection).",
    inputSchema := Json.obj
      [("type", Json.str "object"),
       ("properties", Json.obj
         [("target", Json.obj
            [("type", Json.str "string"),
             ("description", Json.str "Target hostname, IP, or CIDR range.")]),
          ("scan_type", Json.obj
            [("type", Json.str "string"),
             ("description", Json.str "Quick scan type"),
             ("enum", Json.arr [Json.str "ping_sweep", Json.str "common_ports",
                Json.str "service_detection", Json.str "vuln_scan"]),
             ("default", Json.str "common_ports")]),
          ("timing", Json.obj
            [("type", Json.str "string"),
             ("description", Json.str "Speed: T3 (Normal) or T4 (Aggressive)"),
             ("enum", Json.arr [Json.str "T3", Json.str "T4"]),
             ("default", Json.str "T4")])]),
       ("required", Json.arr [Json.str "target"]),
       ("additionalProperties", Json.bool false)],
    execute := fun input =>
      match getStrField input "target" with
      | none => Except.error "missing required field `target`"
      | some target =>
        b.quick_scan target
          ((getStrField input "scan_type").getD "common_ports")
          ((getStrField input "timing").getD "T4") }

/-- `StealthScanTool` (tools/advanced_nmap_tool.rs lines 224-285). -/
def stealthScanTool (b : Backend) : Tool :=
  { name := "stealth_scan",
    description := "Stealthy scans with evasion techniques (slow timing, decoys, fragmentation).",
    inputSchema := Json.obj
      [("type", Json.str "object"),
       ("properties", Json.obj
         [("target", Json.obj
            [("type", Json.str "string"),
             ("description", Json.str "Target hostname or IP address.")]),
          ("stealth_level", Json.obj
            [("type", Json.str "string"),
             ("description", Json.str "Stealth level"),
             ("enum", Json.arr [Json.str "low", Json.str "medium",
                Json.str "high", Json.str "maximum"]),
             ("default", Json.str "medium")]),
          ("scan_type", Json.obj
            [("type", Json.str "string"),
             ("description", Json.str "Stealth scan type"),
             ("enum", Json.arr [Json.str "tcp_fin", Json.str "tcp_null",
                Json.str "tcp_xmas", Json.str "tcp_ack", Json.str "tcp_syn"]),
             ("default", Json.str "tcp_syn")]),
          ("use_decoys", Json.obj
            [("type", Json.str "boolean"),
             ("description", Json.str "Use decoy hosts"),
             ("default", Json.bool true)]),
          ("fragment_packets", Json.obj
            [("type", Json.str "boolean"),
             ("description", Json.str "Fragment packets to evade IDS"),
             ("default", Json.bool false)])]),
       ("required", Json.arr [Json.str "target"]),
       ("additionalProperties", Json.bool false)],
    execute := fun input =>
      match getStrField input "target" with
      | none => Except.error "missing required field `target`"
      | some target =>
        b.stealth_scan target
          ((getStrField input "stealth_level").getD "medium")
          ((getStrField input "scan_type").getD "tcp_syn")
          ((getBoolField input "use_decoys").getD true)
          ((getBoolField input "fragment_packets").getD false) }

/-- `OpenVASGetVersionTool` (tools/openvas_get_version_tool.rs). -/
def openvasGetVersionTool (b : Backend) : Tool :=
  { name := "openvas_get_version",
    description := "Fetches the OpenVAS/GVM version via the Go backend.",
    inputSchema := Json.obj
      [("type", Json.str "object"),
       ("description", Json.str "No input fields required.")],
    execute := fun _input => b.openvas_get_version }

/-- `OpenVASListConfigsTool` (tools/openvas_list_configs_tool.rs). -/
def openvasListConfigsTool (b : Backend) : Tool :=
  { name := "openvas_list_scan_configs",
    description := "Lists all available OpenVAS/GVM scan configurations (profiles) via the Go backend.",
    inputSchema := Json.obj
      [("type", Json.str "object"),
       ("description", Json.str "No input fields required.")],
    execute := fun _input => b.openvas_list_configs }

/-- `OpenVASCreateTargetTool` (tools/openvas_create_target_tool.rs). -/
def openvasCreateTargetTool (b : Backend) : Tool :=
  { name := "openvas_create_target",
    description := "Creates an OpenVAS/GVM target (name, hosts, optional port_range) via the Go backend and returns its ID.",
    inputSchema := Json.obj
      [("type", Json.str "object"),
       ("properties", Json.obj
         [("name", Json.obj
            [("type", Json.str "string"),
             ("description", Json.str "Friendly name for the target.")]),
          ("hosts", Json.obj
            [("type", Json.str "string"),
             ("description", Json.str "Hostname/IP or CIDR understood by OpenVAS.")]),
          ("port_range", Json.obj
            [("type", Json.str "string"),
             ("description", Json.str "Optional port range string (e.g. \x271-65535\x27 or \x2762078\x27).")])]),
       ("required", Json.arr [Json.str "name", Json.str "hosts"]),
       ("additionalProperties", Json.bool false)],
    execute := fun input =>
      match getStrField input "name" with
      | none => Except.error "missing required field `name`"
      | some name =>
        match getStrField input "hosts" with
        | none => Except.error "missing required field `hosts`"
        | some hosts =>
          b.openvas_create_target name hosts (getStrField input "port_range") }

/-- `OpenVASCreateTaskTool` (tools/openvas_create_task_tool.rs). -/
def openvasCreateTaskTool (b : Backend) : Tool :=
  { name := "openvas_create_task",
    description := "Creates an OpenVAS/GVM task (name, config_id, target_id) via the Go backend and returns its ID.",
    inputSchema := Json.obj
      [("type", Json.str "object"),
       ("properties", Json.obj
         [("name", Json.obj
            [("type", Json.str "string"),
             ("description", Json.str "Friendly name for the task.")]),
          ("config_id", Json.obj
            [("type", Json.str "string"),
             ("description", Json.str "OpenVAS scan configuration ID to use for the task.")]),
          ("target_id", Json.obj
            [("type", Json.str "string"),
             ("description", Json.str "OpenVAS target ID that this task will scan.")])]),
       ("required", Json.arr [Json.str "name", Json.str "config_id", Json.str "target_id"]),
       ("additionalProperties", Json.bool false)],
    execute := fun input =>
      match getStrField input "name" with
      | none => Except.error "missing required field `name`"
      | some name =>
        match getStrField input "config_id" with
        | none => Except.error "missing required field `config_id`"
        | some config_id =>
          match getStrField input "target_id" with
          | none => Except.error "missing required field `target_id`"
          | some target_id => b.openvas_create_task name config_id target_id }

/-- `OpenVASStartTaskTool` (tools/openvas_start_task_tool.rs). -/
def openvasStartTaskTool (b : Backend) : Tool :=
  { name := "openvas_start_task",
    description := "Starts an existing OpenVAS/GVM task by ID via the Go backend and returns the raw XML response.",
    inputSchema := Json.obj
      [("type", Json.str "object"),
       ("properties", Json.obj
         [("task_id", Json.obj
            [("type", Json.str "string"),
             ("description", Json.str "OpenVAS task ID to start.")])]),
       ("required", Json.arr [Json.str "task_id"]),
       ("additionalProperties", Json.bool false)],
    execute := fun input =>
      match getStrField input "task_id" with
      | none => Except.error "missing required field `task_id`"
      | some task_id => b.openvas_start_task task_id }

/-- `OpenVASTaskStatusTool` (tools/openvas_task_status_tool.rs). -/
def openvasTaskStatusTool (b : Backend) : Tool :=
  { name := "openvas_task_status",
    description := "Fetches the current status/details for an existing OpenVAS/GVM task by ID via the Go backend.",
    inputSchema := Json.obj
      [("type", Json.str "object"),
       ("properties", Json.obj
         [("task_id", Json.obj
            [("type", Json.str "string"),
             ("description", Json.str "OpenVAS task ID whose status should be fetched.")])]),
       ("required", Json.arr [Json.str "task_id"]),
       ("additionalProperties", Json.bool false)],
    execute := fun input =>
      match getStrField input "task_id" with
      | none => Except.error "missing required field `task_id`"
      | some task_id => b.openvas_task_status task_id }

/-- `OpenVASGetReportTool` (tools/openvas_get_report_tool.rs). -/
def openvasGetReportTool (b : Backend) : Tool :=
  { name := "openvas_get_report",
    description := "Fetches the final OpenVAS/GVM report by report ID via the Go backend.",
    inputSchema := Json.obj
      [("type", Json.str "object"),
       ("properties", Json.obj
         [("report_id", Json.obj
            [("type", Json.str "string"),
             ("description", Json.str "OpenVAS report ID whose contents should be fetched.")])]),
       ("required", Json.arr [Json.str "report_id"]),
       ("additionalProperties", Json.bool false)],
    execute := fun input =>
      match getStrField input "report_id" with
      | none => Except.error "missing required field `report_id`"
      | some report_id => b.openvas_get_report report_id }

/-- Embeds `register_all_tools` (src/chatbot/src/tools/mod.rs lines
15-28): the twelve registrations, in source order. -/
def register_all_tools (b : Backend) (registry : ToolRegistry) : ToolRegistry :=
  (((((((((((registry.register echoTool).register
    (nmapOpenPortsTool b)).register
    (advancedNmapTool b)).register
    (quickScanTool b)).register
    (stealthScanTool b)).register
    (openvasGetVersionTool b)).register
    (openvasListConfigsTool b)).register
    (openvasCreateTargetTool b)).register
    (openvasCreateTaskTool b)).register
    (openvasStartTaskTool b)).register
    (openvasTaskStatusTool b)).register
    (openvasGetReportTool b)

/-- A concrete backend whose every outbound call fails with a transport
error, used to instantiate closed statements (any other Backend value
would serve equally for the universally quantified theorems). -/
def testBackend : Backend :=
  { nmap_normal_scan := fun _ _ => Except.error "connection refused",
    advanced_nmap_scan :=
      fun _ _ _ _ _ _ _ _ _ _ _ _ _ _ _ _ => Except.error "connection refused",
    quick_scan := fun _ _ _ => Except.error "connection refused",
    stealth_scan := fun _ _ _ _ _ => Except.error "connection refused",
    openvas_get_version := Except.error "connection refused",
    openvas_list_configs := Except.error "connection refused",
    openvas_create_target := fun _ _ _ => Except.error "connection refused",
    openvas_create_task := fun _ _ _ => Except.error "connection refused",
    openvas_start_task := fun _ => Except.error "connection refused",
    openvas_task_status := fun _ => Except.error "connection refused",
    openvas_get_report := fun _ => Except.error "connection refused" }

/-- The Registry as built at process start (main.rs lines 110-113), over
the concrete `testBackend`. -/
def startupRegistry : ToolRegistry :=
  register_all_tools testBackend ToolRegistry.new

/-- The capability names appearing in a `tools/list` result. -/
def toolsListNames (reg : ToolRegistry) : List String :=
  reg.list.filterMap (fun j =>
    match Json.getField j "name" with
    | some (Json.str s) => some s
    | _ => none)

/-- C4: a parsed message without a correlation token is a notification —
the engine emits zero response lines, whatever the method field holds. -/
theorem c4_notification_no_response (registry : ToolRegistry)
    (req : RpcRequest) (h : req.id = none) :
    processParsedMessage registry req = [] := by
  unfold processParsedMessage
  rw [h]

/-- Witness for C4: a token-less message whose method is not even in the
method table still produces no response. -/
theorem c4_witness :
    processParsedMessage startupRegistry
      { id := none, method := "no/such_method", params := Json.null } = [] :=
  c4_notification_no_response startupRegistry _ rfl

/-- C7: for every backend, the names in the `tools/list` result are
exactly (as a multiset) the twelve capability names registered by
`register_all_tools`, and the listing holds no duplicate name. -/
theorem c7_tools_list_names (b : Backend) :
    List.Perm (toolsListNames (register_all_tools b ToolRegistry.new))
      ["echo", "nmap_open_ports", "advanced_nmap_scan", "quick_scan",
       "stealth_scan", "openvas_get_version", "openvas_list_scan_configs",
       "openvas_create_target", "openvas_create_task", "openvas_start_task",
       "openvas_task_status", "openvas_get_report"] ∧
    (toolsListNames (register_all_tools b ToolRegistry.new)).Nodup := by
  have h : toolsListNames (register_all_tools b ToolRegistry.new) =
      ["echo", "nmap_open_ports", "advanced_nmap_scan", "quick_scan",
       "stealth_scan", "openvas_get_version", "openvas_list_scan_configs",
       "openvas_create_target", "openvas_create_task", "openvas_start_task",
       "openvas_task_status", "openvas_get_report"] := by
    simp [toolsListNames, register_all_tools, ToolRegistry.register,
      ToolRegistry.new, ToolRegistry.list, Json.getField, echoTool,
      nmapOpenPortsTool, advancedNmapTool, quickScanTool, stealthScanTool,
      openvasGetVersionTool, openvasListConfigsTool, openvasCreateTargetTool,
      openvasCreateTaskTool, openvasStartTaskTool, openvasTaskStatusTool,
      openvasGetReportTool]
  refine ⟨?_, ?_⟩
  · rw [h]
  · rw [h]
    decide

/-- C8: every name returned by `prompts/list` is accepted by
`prompts/get` — the lookup over the same `list_prompts` value cannot
miss. -/
theorem c8_prompt_roundtrip (name : String) (arguments : Json)
    (h : name ∈ list_prompts.map PromptDef.name) :
    ∃ v, get_prompt name arguments = Except.ok v := by
  simp [list_prompts] at h
  subst h
  exact ⟨_, rfl⟩

/-- Witness for C8 at the one listed prompt name. -/
theorem c8_witness :
    ∃ v, get_prompt "explain_openvas_scan_configs" Json.null = Except.ok v :=
  c8_prompt_roundtrip "explain_openvas_scan_configs" Json.null
    (by simp [list_prompts])

/-- C2 is false on the code: the unknown-name case IS collapsed into the
generic execution-error kind.  Calling the unregistered name
`no_such_tool` yields error code -32000 — the very same code a failure
raised during invocation yields (second conjunct, `openvas_get_version`
over a failing backend) — so the three failure modes are not pairwise
distinct error kinds. -/
theorem c2_counterexample :
    (handle_request startupRegistry (Json.num 1)
      { id := some (Json.num 1), method := "tools/call",
        params := Json.obj [("name", Json.str "no_such_tool")] }).error
      = some { code := -32000, message := "Tool error: Unknown tool: no_such_tool" } ∧
    (handle_request startupRegistry (Json.num 2)
      { id := some (Json.num 2), method := "tools/call",
        params := Json.obj [("name", Json.str "openvas_get_version")] }).error
      = some { code := -32000, message := "Tool error: connection refused" } :=
  ⟨rfl, rfl⟩

/-- C2 amended: a missing or mistyped `name` field yields code -32602; an
unregistered name yields a well-formed failure response (never a crash or
an empty success) with code -32000 and message
`"Tool error: Unknown tool: {name}"`; a failure raised during invocation
yields code -32000 with message `"Tool error: {err}"`.  The unknown-name
case thus shares the generic execution-error code -32000 and is
distinguished from it only by its message text. -/
theorem c2_amended (registry : ToolRegistry) (id : Json) (req : RpcRequest)
    (hm : req.method = "tools/call") :
    (∀ e, parseToolCallParams req.params = Except.error e →
      handle_request registry id req =
        err_resp id (-32602) ("Invalid params: " ++ e)) ∧
    (∀ p, parseToolCallParams req.params = Except.ok p →
      registry.lookup p.name = none →
      handle_request registry id req =
        err_resp id (-32000) ("Tool error: Unknown tool: " ++ p.name)) ∧
    (∀ p t e, parseToolCallParams req.params = Except.ok p →
      registry.lookup p.name = some t → t.execute p.input = Except.error e →
      handle_request registry id req =
        err_resp id (-32000) ("Tool error: " ++ e)) := by
  refine ⟨?_, ?_, ?_⟩
  · intro e he
    simp [handle_request, hm, he]
  · intro p hp hl
    simp [handle_request, hm, hp, ToolRegistry.call, hl]
    rfl
  · intro p t e hp hl he
    simp [handle_request, hm, hp, ToolRegistry.call, hl, he]

/-- Witness for the amended C2: over the startup registry, calling the
unregistered name `no_such_tool` returns the -32000 response with the
unknown-tool message. -/
theorem c2_amended_witness :
    handle_request startupRegistry (Json.num 7)
      { id := some (Json.num 7), method := "tools/call",
        params := Json.obj [("name", Json.str "no_such_tool"),
                            ("input", Json.null)] } =
      err_resp (Json.num 7) (-32000) "Tool error: Unknown tool: no_such_tool" := by
  have h := (c2_amended startupRegistry (Json.num 7)
    { id := some (Json.num 7), method := "tools/call",
      params := Json.obj [("name", Json.str "no_such_tool"),
                          ("input", Json.null)] } rfl).2.1
    { name := "no_such_tool", input := Json.null } rfl rfl
  exact h

/-- C10: a `tools/call` params object with a valid string `name` and no
`input` field at all parses successfully (no invalid-params error):
`input` defaults to JSON null and the named capability is invoked with
that null payload. -/
theorem c10_missing_input_defaults_null (params : Json) (name : String)
    (hname : Json.getField params "name" = some (Json.str name))
    (hinput : Json.getField params "input" = none) :
    parseToolCallParams params = Except.ok { name := name, input := Json.null } ∧
    ∀ (registry : ToolRegistry) (id : Json) (req : RpcRequest),
      req.method = "tools/call" → req.params = params →
      handle_request registry id req =
        (match registry.call name Json.null with
         | Except.ok v => ok id (Json.obj [("output", v)])
         | Except.error e => err_resp id (-32000) ("Tool error: " ++ e)) := by
  have hobj : ∃ fields, params = Json.obj fields := by
    cases params
    case obj fields => exact ⟨fields, rfl⟩
    all_goals simp [Json.getField] at hname
  obtain ⟨fields, rfl⟩ := hobj
  have hparse : parseToolCallParams (Json.obj fields) =
      Except.ok { name := name, input := Json.null } := by
    simp [parseToolCallParams, hname, hinput]
  refine ⟨hparse, ?_⟩
  intro registry id req hm hp
  cases hc : ToolRegistry.call registry name Json.null <;>
    simp [handle_request, hm, hp, hparse, hc]

/-- Witness for C10: calling `echo` with no `input` field invokes the
echo capability with the null payload, yielding a success response. -/
theorem c10_witness :
    parseToolCallParams (Json.obj [("name", Json.str "echo")]) =
      Except.ok { name := "echo", input := Json.null } ∧
    handle_request startupRegistry (Json.num 3)
      { id := some (Json.num 3), method := "tools/call",
        params := Json.obj [("name", Json.str "echo")] } =
      ok (Json.num 3) (Json.obj [("output", Json.obj [("echo", Json.null)])]) := by
  have h := c10_missing_input_defaults_null
    (Json.obj [("name", Json.str "echo")]) "echo" rfl rfl
  refine ⟨h.1, ?_⟩
  have h2 := h.2 startupRegistry (Json.num 3)
    { id := some (Json.num 3), method := "tools/call",
      params := Json.obj [("name", Json.str "echo")] } rfl rfl
  exact h2
